import Mathlib

/-!
Shallow embedding of the live-messaging core of the ChattApp repository
(`src/app/websocket.py`, `src/app/models.py`, `src/app/encryption.py`,
`src/app/routers/conversations.py`, `src/app/routers/rooms.py`), together
with theorems settling the specification claims about it.

Conventions of the embedding:
* WebSocket handles, user ids, conversation ids and message ids are `Nat`.
* Timestamps are `Int` microseconds (the resolution of Python `datetime`);
  `timedelta(seconds=30)` is the constant `thirtySeconds`.
* Python dicts are modelled as association lists (key, value) with the
  dict's key-uniqueness carried as a hypothesis where a theorem needs it.
* The success or failure of a transport send (`websocket.send_json`) is an
  environment parameter `fails : Nat → Bool` over websocket handles.
* The external Fernet codec is an environment parameter
  `decode : String → Option String` (`none` models a decode exception) and
  `encode : String → String`.
-/

namespace ChatApp

/-- `MessageStatus` enum from `src/app/models.py` lines 11-15. -/
inductive MessageStatus
  | SENT
  | DELIVERED
  | READ
deriving DecidableEq, Repr

/-- Position of a status in the order SENT < DELIVERED < READ. -/
def MessageStatus.rank : MessageStatus → Nat
  | .SENT => 0
  | .DELIVERED => 1
  | .READ => 2

/-- The wire value of a status (`MessageStatus(str, enum.Enum)` values). -/
def MessageStatus.value : MessageStatus → String
  | .SENT => "sent"
  | .DELIVERED => "delivered"
  | .READ => "read"

/-- The columns of the `Message` model (`src/app/models.py` lines 97-116)
that the live-messaging core reads or writes.  File/reply/edit columns are
not touched by any claim and are omitted. -/
structure Message where
  id : Nat
  content : String
  conversation_id : Nat
  sender_id : Nat
  status : MessageStatus
  is_encrypted : Bool
  is_deleted : Bool
deriving DecidableEq, Repr

/-- The message table, as far as the core reads it. -/
abbrev MsgStore := List Message

/-! ### Presence tracker

`online_users : Dict[int, datetime]` from `src/app/websocket.py` line 20,
read by `get_conversations` in `src/app/routers/conversations.py`
lines 82-88. -/

abbrev Presence := List (Nat × Int)

/-- Association-list lookup standing for Python `dict[key]` access. -/
def alistLookup {β : Type} (l : List (Nat × β)) (k : Nat) : Option β :=
  match l.find? (fun p => p.1 = k) with
  | some p => some p.2
  | none => none

/-- `online_users[user.id] = datetime.now(...)` (`src/app/websocket.py`
line 116): upsert of the last-active timestamp. -/
def markActive (p : Presence) (uid : Nat) (now : Int) : Presence :=
  if p.any (fun q => q.1 = uid) then
    p.map (fun q => if q.1 = uid then (uid, now) else q)
  else
    p ++ [(uid, now)]

/-- `del online_users[user.id]` guarded by membership
(`src/app/websocket.py` lines 253-254). -/
def markInactive (p : Presence) (uid : Nat) : Presence :=
  p.filter (fun q => q.1 ≠ uid)

/-- `timedelta(seconds=30)` in microseconds. -/
def thirtySeconds : Int := 30000000

/-- The online check from `src/app/routers/conversations.py` lines 82-88:
`is_online = False`; if the user has an entry, `is_online` becomes
`now - last_active < timedelta(seconds=30)`.  (The `isinstance` guard is
always satisfied in the embedding's types.) -/
def is_online (p : Presence) (uid : Nat) (now : Int) : Bool :=
  match alistLookup p uid with
  | some t => now - t < thirtySeconds
  | none => false

/-! ### Connection registry

`ConnectionManager` from `src/app/websocket.py` lines 23-64.  The state
`active_connections : Dict[int, Dict[WebSocket, int]]` maps a conversation
id to the dict of live websockets tagged with their user ids. -/

/-- One conversation's connection dict `{websocket: user_id}`. -/
abbrev Bucket := List (Nat × Nat)

/-- `active_connections`. -/
abbrev Registry := List (Nat × Bucket)

/-- Dict write `d[k] = v`: overwrite if the key exists, else append. -/
def bucketSet (b : Bucket) (ws uid : Nat) : Bucket :=
  if b.any (fun p => p.1 = ws) then
    b.map (fun p => if p.1 = ws then (ws, uid) else p)
  else
    b ++ [(ws, uid)]

/-- Dict delete guarded by membership (`if ws in d: del d[ws]`). -/
def bucketDelete (b : Bucket) (ws : Nat) : Bucket :=
  b.filter (fun p => p.1 ≠ ws)

/-- Replace the bucket stored under `cid` (in-place mutation of the inner
dict in Python). -/
def registrySet (r : Registry) (cid : Nat) (b : Bucket) : Registry :=
  r.map (fun q => if q.1 = cid then (cid, b) else q)

/-- `ConnectionManager.connect` (`src/app/websocket.py` lines 29-34):
create the bucket lazily, then register the websocket under its user. -/
def connect (r : Registry) (cid ws uid : Nat) : Registry :=
  match alistLookup r cid with
  | some b => registrySet r cid (bucketSet b ws uid)
  | none => r ++ [(cid, bucketSet [] ws uid)]

/-- `ConnectionManager.disconnect` (`src/app/websocket.py` lines 36-42):
remove the websocket if present; if the bucket becomes empty, delete the
conversation's entry itself. -/
def disconnect (r : Registry) (cid ws : Nat) : Registry :=
  match alistLookup r cid with
  | some b =>
    if b.any (fun p => p.1 = ws) then
      if bucketDelete b ws = [] then r.filter (fun q => q.1 ≠ cid)
      else registrySet r cid (bucketDelete b ws)
    else r
  | none => r

/-- The send loop of `ConnectionManager.send_to_conversation`
(`src/app/websocket.py` lines 53-59): iterate the bucket in order; skip
the excluded websocket; a send that raises (`fails ws = true`) appends the
websocket to `disconnected` instead of aborting the loop.  Returns
(successfully delivered websockets, `disconnected`), each in iteration
order. -/
def sendLoop (fails : Nat → Bool) (exclude : Option Nat) :
    Bucket → List Nat × List Nat
  | [] => ([], [])
  | (ws, _) :: rest =>
    if some ws = exclude then sendLoop fails exclude rest
    else
      let (d, dis) := sendLoop fails exclude rest
      if fails ws then (d, ws :: dis) else (ws :: d, dis)

/-- The cleanup loop of `send_to_conversation` (`src/app/websocket.py`
lines 62-64): delete each disconnected websocket from the bucket.  The
bucket entry itself is kept even when it becomes empty. -/
def pruneAll (b : Bucket) (dis : List Nat) : Bucket :=
  dis.foldl bucketDelete b

/-- `ConnectionManager.send_to_conversation` (`src/app/websocket.py`
lines 48-64).  Returns the list of websockets that received the event and
the registry after pruning failed connections. -/
def send_to_conversation (fails : Nat → Bool) (r : Registry) (cid : Nat)
    (exclude : Option Nat) : List Nat × Registry :=
  match alistLookup r cid with
  | none => ([], r)
  | some b =>
    let (d, dis) := sendLoop fails exclude b
    (d, registrySet r cid (pruneAll b dis))

/-- The registry holds no conversation entry with an empty bucket. -/
def noEmptyBucket (r : Registry) : Prop :=
  ∀ q ∈ r, q.2 ≠ ([] : Bucket)

instance (r : Registry) : Decidable (noEmptyBucket r) := by
  unfold noEmptyBucket
  infer_instance

/-! ### Outbound events

Wire events produced by the endpoint (`src/app/websocket.py`).  The
`timestamp` / `last_seen` fields carried by outbound events and the
file-attachment fields of the message payload (always absent for
messages created over the websocket) are omitted: no claim concerns
them. -/

inductive OutEvent
  | message (id : Nat) (content : String) (sender_username : String)
      (sender_id : Nat) (conversation_id : Nat) (status : String)
      (message_type : String) (is_encrypted : Bool)
  | typing (username : String) (is_typing : Bool)
  | status_update (message_id : Nat) (status : String)
  | user_status (user_id : Nat) (is_online : Bool)
deriving DecidableEq, Repr

/-- Recognizer for `status_update` events. -/
def isStatusUpdateEvent : OutEvent → Bool
  | .status_update _ _ => true
  | _ => false

/-! ### Content codec

`src/app/encryption.py`.  The Fernet/base64 round trip is the
environment parameter: `encode : String → String` stands for
`encrypt_message`'s successful path, and `decode : String → Option String`
stands for the base64-decode + Fernet-decrypt step of `decrypt_message`,
with `none` modelling the raised exception. -/

/-- `decrypt_message` (`src/app/encryption.py` lines 41-51): empty input
is returned as is; a decode exception is caught and the original
encrypted string is returned unchanged. -/
def decrypt_message (decode : String → Option String) (s : String) :
    String :=
  if s = "" then s
  else
    match decode s with
    | some plain => plain
    | none => s

/-- The per-message display logic of `get_messages`
(`src/app/routers/conversations.py` lines 244-253 and 284):
`display_content = msg.content`; if the message is encrypted and not
deleted it is passed through `decrypt_message` (whose own exception
handler makes the surrounding `except` branch dead); a deleted message
displays the deletion text. -/
def displayContent (decode : String → Option String) (m : Message) :
    String :=
  let dc :=
    if m.is_encrypted = true ∧ m.is_deleted = false
    then decrypt_message decode m.content else m.content
  if m.is_deleted then "This message was deleted" else dc

/-! ### Bulk status sweep

The two bulk UPDATE statements run when a participant connects
(`src/app/websocket.py` lines 131-147) or reads
(`src/app/routers/conversations.py` lines 213-232,
`src/app/routers/rooms.py` lines 144-157). -/

/-- The row transformation of the first UPDATE: messages of the channel
authored by the other participant at SENT move to DELIVERED. -/
def deliverOne (cid other : Nat) (m : Message) : Message :=
  if m.conversation_id = cid ∧ m.sender_id = other ∧
      m.status = MessageStatus.SENT
  then { m with status := MessageStatus.DELIVERED } else m

/-- The row transformation of the second UPDATE: messages of the channel
authored by the other participant at DELIVERED move to READ. -/
def readOne (cid other : Nat) (m : Message) : Message :=
  if m.conversation_id = cid ∧ m.sender_id = other ∧
      m.status = MessageStatus.DELIVERED
  then { m with status := MessageStatus.READ } else m

/-- `...filter(status == SENT).update({status: DELIVERED})`. -/
def markDelivered (store : MsgStore) (cid other : Nat) : MsgStore :=
  store.map (deliverOne cid other)

/-- `...filter(status == DELIVERED).update({status: READ})`. -/
def markRead (store : MsgStore) (cid other : Nat) : MsgStore :=
  store.map (readOne cid other)

/-- The two-phase sweep in source order: mark-as-delivered, then
mark-as-read (`src/app/websocket.py` lines 133-147). -/
def connectSweep (store : MsgStore) (cid other : Nat) : MsgStore :=
  markRead (markDelivered store cid other) cid other

/-! ### Explicit status update -/

/-- `db.query(Message).filter(Message.id == message_id).first()` followed
by a mutation of that row: the first message with the given id gets the
new status; later rows are untouched. -/
def setStatusFirst : MsgStore → Nat → MessageStatus → MsgStore
  | [], _, _ => []
  | m :: rest, mid, st =>
    if m.id = mid then { m with status := st } :: rest
    else m :: setStatusFirst rest mid st

/-- The `status_update` branch of the receive loop
(`src/app/websocket.py` lines 228-248).  `message_id` and `status` are
the optional fields of the inbound payload; `if message_id and
new_status` is Python truthiness (present, non-zero, non-empty).  When a
message with that id exists and belongs to the current channel, a
"delivered" or "read" status is assigned unconditionally (any other
string leaves the store untouched) and a `status_update` event carrying
the raw inbound status string is broadcast either way.  Returns the
updated store and the event to broadcast, if any. -/
def handleStatusUpdate (store : MsgStore) (cid : Nat)
    (message_id : Option Nat) (new_status : Option String) :
    MsgStore × Option OutEvent :=
  match message_id, new_status with
  | some mid, some s =>
    if mid ≠ 0 ∧ s ≠ "" then
      match store.find? (fun m => m.id = mid) with
      | some m =>
        if m.conversation_id = cid then
          (if s = "delivered" then
             setStatusFirst store mid MessageStatus.DELIVERED
           else if s = "read" then
             setStatusFirst store mid MessageStatus.READ
           else store,
           some (OutEvent.status_update mid s))
        else (store, none)
      | none => (store, none)
    else (store, none)
  | _, _ => (store, none)

/-! ### The receive loop of the websocket endpoint -/

/-- One inbound payload after `json.loads` succeeded and produced an
object: one of the three recognized event types, or anything else
(unknown or absent `type`), which falls through every `elif`. -/
inductive InEvent
  | message (content : String) (encrypt : Bool) (message_type : String)
  | typing (is_typing : Bool)
  | status_update (message_id : Option Nat) (status : Option String)
  | unknown
deriving DecidableEq, Repr

/-- Python `str.strip()`: drop leading and trailing whitespace.
Implemented over the character list by structural recursion so concrete
inputs evaluate. -/
def pythonStrip (s : String) : String :=
  ⟨((s.data.dropWhile Char.isWhitespace).reverse.dropWhile
      Char.isWhitespace).reverse⟩

/-- One raw inbound frame: `malformed` models text on which `json.loads`
raises (or a JSON value that is not an object, on which `.get` raises). -/
inductive Frame
  | malformed
  | event (e : InEvent)
deriving DecidableEq, Repr

/-- The per-connection state the receive loop reads and writes: the
shared registry, the message table and the autoincrement id the store
will assign to the next inserted row.  (`conversation.last_message_at`
is also written on message creation; no claim concerns it.) -/
structure LoopState where
  registry : Registry
  store : MsgStore
  nextId : Nat
deriving DecidableEq, Repr

/-- Result of processing one frame: `next` carries the new state, the
events broadcast to the channel (each with its recipient websockets) and
the events sent back to this connection itself; `crashed` models an
exception escaping the `while` loop — the `try` block catches only
`WebSocketDisconnect`, so any other exception tears the connection down
without running the disconnect cleanup. -/
inductive StepResult
  | next (st : LoopState) (broadcasts : List (OutEvent × List Nat))
      (personal : List OutEvent)
  | crashed
deriving DecidableEq, Repr

/-- One iteration of the receive loop of `websocket_endpoint`
(`src/app/websocket.py` lines 149-248) for the connection `ws` of user
`uid` (named `username`) in conversation `cid`. -/
def receiveStep (fails : Nat → Bool) (encode : String → String)
    (decode : String → Option String) (cid uid ws : Nat)
    (username : String) (st : LoopState) : Frame → StepResult
  | Frame.malformed => StepResult.crashed
  | Frame.event (InEvent.message content encrypt mtype) =>
    if pythonStrip content = "" then StepResult.next st [] []
    else
      let stored :=
        if encrypt then encode (pythonStrip content)
        else pythonStrip content
      let msg : Message :=
        { id := st.nextId, content := stored, conversation_id := cid,
          sender_id := uid, status := MessageStatus.SENT,
          is_encrypted := encrypt, is_deleted := false }
      let display :=
        if encrypt then decrypt_message decode stored else stored
      let payload :=
        OutEvent.message st.nextId display username uid cid
          MessageStatus.SENT.value mtype encrypt
      let sr := send_to_conversation fails st.registry cid (some ws)
      StepResult.next
        { registry := sr.2, store := st.store ++ [msg],
          nextId := st.nextId + 1 }
        [(payload, sr.1)] [payload]
  | Frame.event (InEvent.typing is_typing) =>
    let sr := send_to_conversation fails st.registry cid (some ws)
    StepResult.next { st with registry := sr.2 }
      [(OutEvent.typing username is_typing, sr.1)] []
  | Frame.event (InEvent.status_update mid s) =>
    let res := handleStatusUpdate st.store cid mid s
    match res.2 with
    | some e =>
      let sr := send_to_conversation fails st.registry cid (some ws)
      StepResult.next { st with store := res.1, registry := sr.2 }
        [(e, sr.1)] []
    | none => StepResult.next { st with store := res.1 } [] []
  | Frame.event InEvent.unknown => StepResult.next st [] []

/-! ### The connect phase -/

/-- The joining sequence of `websocket_endpoint`
(`src/app/websocket.py` lines 114-147): mark the user active in the
presence map, register the connection, broadcast a `user_status`
(online) event to the rest of the channel, then run the two-phase bulk
sweep over messages authored by the other participant.  The sweep emits
no events: the broadcast log of the whole phase is the single
`user_status` event. -/
def connectPhase (fails : Nat → Bool) (r : Registry) (store : MsgStore)
    (p : Presence) (cid uid other ws : Nat) (now : Int) :
    Registry × MsgStore × Presence × List (OutEvent × List Nat) :=
  let p1 := markActive p uid now
  let r1 := connect r cid ws uid
  let sr := send_to_conversation fails r1 cid (some ws)
  let store1 := connectSweep store cid other
  (sr.2, store1, p1, [(OutEvent.user_status uid true, sr.1)])

/-! ### Registry lemmas -/

theorem bucketSet_ne_nil (b : Bucket) (ws uid : Nat) :
    bucketSet b ws uid ≠ [] := by
  unfold bucketSet
  split
  · rename_i h
    cases b with
    | nil => simp at h
    | cons x xs => simp
  · simp

theorem registrySet_noEmpty (r : Registry) (cid : Nat) (b : Bucket)
    (hr : noEmptyBucket r) (hb : b ≠ []) :
    noEmptyBucket (registrySet r cid b) := by
  intro q hq
  unfold registrySet at hq
  rw [List.mem_map] at hq
  obtain ⟨p, hp, hpq⟩ := hq
  by_cases h : p.1 = cid
  · rw [if_pos h] at hpq
    rw [← hpq]
    exact hb
  · rw [if_neg h] at hpq
    rw [← hpq]
    exact hr p hp

theorem connect_noEmpty (r : Registry) (cid ws uid : Nat)
    (hr : noEmptyBucket r) : noEmptyBucket (connect r cid ws uid) := by
  unfold connect
  cases h : alistLookup r cid with
  | some b => exact registrySet_noEmpty r cid _ hr (bucketSet_ne_nil b ws uid)
  | none =>
    intro q hq
    rw [List.mem_append] at hq
    rcases hq with hq | hq
    · exact hr q hq
    · rw [List.mem_singleton] at hq
      rw [hq]
      exact bucketSet_ne_nil [] ws uid

theorem disconnect_noEmpty (r : Registry) (cid ws : Nat)
    (hr : noEmptyBucket r) : noEmptyBucket (disconnect r cid ws) := by
  unfold disconnect
  cases h : alistLookup r cid with
  | none => exact hr
  | some b =>
    dsimp only
    by_cases hin : b.any (fun p => p.1 = ws) = true
    · by_cases hdel : bucketDelete b ws = []
      · rw [if_pos hin, if_pos hdel]
        intro q hq
        exact hr q (List.mem_of_mem_filter hq)
      · rw [if_pos hin, if_neg hdel]
        exact registrySet_noEmpty r cid _ hr hdel
    · rw [if_neg hin]
      exact hr

theorem disconnect_absent (r : Registry) (cid ws : Nat)
    (h : ∀ b, alistLookup r cid = some b →
      b.any (fun p => p.1 = ws) = false) :
    disconnect r cid ws = r := by
  unfold disconnect
  cases hl : alistLookup r cid with
  | none => rfl
  | some b => simp [h b hl]

/-- C5 (corrected, part 1 of the amended claim): join and leave preserve
the no-empty-bucket invariant, and leaving with a connection that is not
registered under the channel changes nothing. -/
theorem c5_join_leave_no_empty_bucket (r : Registry) (cid ws uid : Nat)
    (hr : noEmptyBucket r) :
    noEmptyBucket (connect r cid ws uid) ∧
    noEmptyBucket (disconnect r cid ws) ∧
    ((∀ b, alistLookup r cid = some b →
        b.any (fun p => p.1 = ws) = false) →
      disconnect r cid ws = r) :=
  ⟨connect_noEmpty r cid ws uid hr, disconnect_noEmpty r cid ws hr,
   disconnect_absent r cid ws⟩

/-- Witness for the amended C5 at a concrete registry. -/
theorem c5_join_leave_no_empty_bucket_witness :
    noEmptyBucket [(1, [(7, 42)])] ∧
    noEmptyBucket (connect [(1, [(7, 42)])] 2 9 3) ∧
    noEmptyBucket (disconnect [(1, [(7, 42)])] 1 7) ∧
    disconnect [(1, [(7, 42)])] 1 9 = [(1, [(7, 42)])] := by
  have h := c5_join_leave_no_empty_bucket [(1, [(7, 42)])] 1 9 3 (by decide)
  refine ⟨by decide, ?_, by decide, h.2.2 (by decide)⟩
  exact (c5_join_leave_no_empty_bucket [(1, [(7, 42)])] 2 9 3 (by decide)).1

/-- C5 counterexample: a broadcast whose only (non-excluded) recipient
fails is pruned from the bucket, but the now-empty bucket itself stays in
the registry — the claimed invariant fails after a broadcast that prunes
the last connection of a channel. -/
theorem c5_broadcast_empty_bucket_counterexample :
    connect [] 1 7 42 = [(1, [(7, 42)])] ∧
    send_to_conversation (fun _ => true) [(1, [(7, 42)])] 1 none
      = ([], [(1, [])]) ∧
    ¬ noEmptyBucket [(1, [])] := by
  refine ⟨by decide, by decide, ?_⟩
  intro h
  exact h (1, []) (by decide) rfl

theorem sendLoop_fst (fails : Nat → Bool) (ex : Option Nat) (b : Bucket) :
    (sendLoop fails ex b).1
      = (b.filter (fun p => some p.1 ≠ ex ∧ fails p.1 = false)).map
          Prod.fst := by
  induction b with
  | nil => rfl
  | cons p rest ih =>
    obtain ⟨ws, uid⟩ := p
    unfold sendLoop
    by_cases h : some ws = ex
    · simp only [if_pos h, List.filter_cons]
      have : ¬ (some ws ≠ ex ∧ fails ws = false) := fun hc => hc.1 h
      simp [this, ih]
    · rw [if_neg h]
      by_cases hf : fails ws = true
      · have : ¬ (some ws ≠ ex ∧ fails ws = false) := by
          simp [hf]
        simp [hf, this, ih, List.filter_cons]
      · have hff : fails ws = false := by
          simpa using hf
        have : some ws ≠ ex ∧ fails ws = false := ⟨h, hff⟩
        simp [hff, this, ih, List.filter_cons]

theorem sendLoop_snd (fails : Nat → Bool) (ex : Option Nat) (b : Bucket) :
    (sendLoop fails ex b).2
      = (b.filter (fun p => some p.1 ≠ ex ∧ fails p.1 = true)).map
          Prod.fst := by
  induction b with
  | nil => rfl
  | cons p rest ih =>
    obtain ⟨ws, uid⟩ := p
    unfold sendLoop
    by_cases h : some ws = ex
    · have : ¬ (some ws ≠ ex ∧ fails ws = true) := fun hc => hc.1 h
      simp [h, this, ih, List.filter_cons]
    · rw [if_neg h]
      by_cases hf : fails ws = true
      · have : some ws ≠ ex ∧ fails ws = true := ⟨h, hf⟩
        simp [hf, this, ih, List.filter_cons]
      · have hff : fails ws = false := by
          simpa using hf
        have : ¬ (some ws ≠ ex ∧ fails ws = true) := by
          simp [hff]
        simp [hff, this, ih, List.filter_cons]

theorem pruneAll_eq_filter (dis : List Nat) (b : Bucket) :
    pruneAll b dis = b.filter (fun p => p.1 ∉ dis) := by
  induction dis generalizing b with
  | nil => simp [pruneAll]
  | cons w ws ih =>
    unfold pruneAll at ih ⊢
    rw [List.foldl_cons]
    show List.foldl bucketDelete (bucketDelete b w) ws = _
    rw [ih (bucketDelete b w)]
    unfold bucketDelete
    rw [List.filter_filter]
    apply List.filter_congr
    intro p _
    by_cases h1 : p.1 = w
    · simp [h1]
    · by_cases h2 : p.1 ∈ ws
      · simp [h1, h2]
      · simp [h1, h2]

/-- C6 (confirmed): the broadcast delivers the event to exactly the
connections registered under the channel other than the excluded one
whose sends succeed, and the updated registry removes from the bucket
exactly the non-excluded connections whose sends fail — so one failed
send never aborts delivery to the rest, and a failed connection is
pruned as a side effect. -/
theorem c6_broadcast_delivery_and_prune (fails : Nat → Bool)
    (r : Registry) (cid : Nat) (ex : Option Nat) (b : Bucket)
    (hb : alistLookup r cid = some b) :
    (send_to_conversation fails r cid ex).1
      = (b.filter (fun p => some p.1 ≠ ex ∧ fails p.1 = false)).map
          Prod.fst ∧
    (send_to_conversation fails r cid ex).2
      = registrySet r cid
          (b.filter (fun p => ¬ (some p.1 ≠ ex ∧ fails p.1 = true))) := by
  unfold send_to_conversation
  rw [hb]
  dsimp only
  constructor
  · exact sendLoop_fst fails ex b
  · rw [sendLoop_snd fails ex b, pruneAll_eq_filter]
    congr 1
    apply List.filter_congr
    intro p hp
    by_cases hc : some p.1 ≠ ex ∧ fails p.1 = true
    · have : p.1 ∈ (b.filter
          (fun q => some q.1 ≠ ex ∧ fails q.1 = true)).map Prod.fst := by
        rw [List.mem_map]
        exact ⟨p, List.mem_filter.2 ⟨hp, by simpa using hc⟩, rfl⟩
      simp only [this, hc]
      simp [hc]
    · have : p.1 ∉ (b.filter
          (fun q => some q.1 ≠ ex ∧ fails q.1 = true)).map Prod.fst := by
        rw [List.mem_map]
        rintro ⟨q, hq, hq1⟩
        rcases List.mem_filter.1 hq with ⟨_, hq2⟩
        have hq3 : some q.1 ≠ ex ∧ fails q.1 = true := by simpa using hq2
        exact hc ⟨by rw [← hq1]; exact hq3.1, by rw [← hq1]; exact hq3.2⟩
      simp [this, hc]

/-- Witness for C6: channel 1 holds websockets 1 (excluded), 2 (send
fails) and 3; websocket 3 still receives the event and only websocket 2
is pruned. -/
theorem c6_broadcast_delivery_and_prune_witness :
    (send_to_conversation (fun w => w == 2)
        [(1, [(1, 10), (2, 20), (3, 30)])] 1 (some 1)).1 = [3] ∧
    (send_to_conversation (fun w => w == 2)
        [(1, [(1, 10), (2, 20), (3, 30)])] 1 (some 1)).2
      = [(1, [(1, 10), (3, 30)])] :=
  ⟨((c6_broadcast_delivery_and_prune (fun w => w == 2)
      [(1, [(1, 10), (2, 20), (3, 30)])] 1 (some 1)
      [(1, 10), (2, 20), (3, 30)] (by decide)).1).trans (by decide),
   ((c6_broadcast_delivery_and_prune (fun w => w == 2)
      [(1, [(1, 10), (2, 20), (3, 30)])] 1 (some 1)
      [(1, 10), (2, 20), (3, 30)] (by decide)).2).trans (by decide)⟩

/-- C7 (confirmed): `is_online` is true iff an entry exists whose
timestamp is strictly less than 30 seconds old; no entry means offline,
and a difference of exactly 30 seconds is offline. -/
theorem c7_is_online_iff (p : Presence) (uid : Nat) (now : Int) :
    (is_online p uid now = true ↔
      ∃ t, alistLookup p uid = some t ∧ now - t < thirtySeconds) ∧
    (alistLookup p uid = none → is_online p uid now = false) ∧
    (∀ t, alistLookup p uid = some t → now - t = thirtySeconds →
      is_online p uid now = false) := by
  refine ⟨?_, ?_, ?_⟩
  · constructor
    · intro h
      unfold is_online at h
      cases hl : alistLookup p uid with
      | none => rw [hl] at h; simp at h
      | some t =>
        rw [hl] at h
        exact ⟨t, rfl, by simpa using h⟩
    · rintro ⟨t, hl, ht⟩
      unfold is_online
      rw [hl]
      simpa using ht
  · intro h
    unfold is_online
    rw [h]
  · intro t hl he
    unfold is_online
    rw [hl]
    simp [he]

/-! ### Receive-loop error handling -/

/-- C2 (corrected): a payload that parses to an object with an unknown
(or missing) event type falls through every `elif` and is dropped for
that single event, the loop continuing with unchanged state; but a
structurally unparseable payload makes `json.loads` raise, and since the
`try` block catches only `WebSocketDisconnect`, the exception escapes
the loop and the connection is torn down. -/
theorem c2_unknown_dropped_malformed_fatal (fails : Nat → Bool)
    (encode : String → String) (decode : String → Option String)
    (cid uid ws : Nat) (username : String) (st : LoopState) :
    receiveStep fails encode decode cid uid ws username st
        (Frame.event InEvent.unknown) = StepResult.next st [] [] ∧
    receiveStep fails encode decode cid uid ws username st Frame.malformed
      = StepResult.crashed :=
  ⟨rfl, rfl⟩

/-- C2 counterexample: at a concrete session state, an unparseable
inbound payload does not continue the loop — the step is `crashed`, so
the connection is terminated, contradicting the claim that malformed
payloads are non-fatal to the connection. -/
theorem c2_malformed_fatal_counterexample :
    receiveStep (fun _ => false) (fun s => s) (fun _ => none) 1 1 1
        "alice" ⟨[], [], 0⟩ Frame.malformed = StepResult.crashed ∧
    StepResult.crashed ≠ StepResult.next ⟨[], [], 0⟩ [] [] :=
  ⟨rfl, by decide⟩

/-! ### Connect-phase broadcasts -/

/-- C3 (corrected, amended form): the connect phase broadcasts exactly
one event — the `user_status` (online) notification; the bulk sweep it
runs advances stored statuses silently, emitting no per-message
`status_update` events. -/
theorem c3_connect_broadcasts_only_user_status (fails : Nat → Bool)
    (r : Registry) (store : MsgStore) (p : Presence)
    (cid uid other ws : Nat) (now : Int) :
    ((connectPhase fails r store p cid uid other ws now).2.2.2).map
        Prod.fst = [OutEvent.user_status uid true] := rfl

/-- C3 counterexample: user 2 connects to channel 1 where user 1 has one
live websocket (id 1) and two SENT messages; the sweep advances both
messages to READ, yet the broadcast log holds only the `user_status`
event — no `status_update` event for either message id reaches user 1's
connection. -/
theorem c3_sweep_broadcast_counterexample :
    connectPhase (fun _ => false) [(1, [(1, 1)])]
        [⟨10, "a", 1, 1, MessageStatus.SENT, false, false⟩,
         ⟨11, "b", 1, 1, MessageStatus.SENT, false, false⟩]
        [] 1 2 1 2 999
      = ([(1, [(1, 1), (2, 2)])],
         [⟨10, "a", 1, 1, MessageStatus.READ, false, false⟩,
          ⟨11, "b", 1, 1, MessageStatus.READ, false, false⟩],
         [(2, 999)],
         [(OutEvent.user_status 2 true, [1])]) ∧
    ([((OutEvent.user_status 2 true : OutEvent), [(1 : Nat)])]).filter
        (fun q => isStatusUpdateEvent q.1) = [] := by
  constructor
  · rfl
  · rfl

/-! ### Decode-failure handling -/

/-- C9 (corrected, amended form): when the codec fails on an encrypted,
non-deleted message, `get_messages` returns the message with its raw
stored content unchanged (`decrypt_message` catches the exception and
returns its input), and the read itself does not fail. -/
theorem c9_decode_failure_returns_raw (decode : String → Option String)
    (m : Message) (henc : m.is_encrypted = true)
    (hdel : m.is_deleted = false) (hfail : decode m.content = none) :
    displayContent decode m = m.content := by
  by_cases hc : m.content = ""
  · simp [displayContent, henc, hdel, decrypt_message, hc]
  · simp [displayContent, henc, hdel, decrypt_message, hc, hfail]

/-- Witness for the amended C9 at a concrete undecodable message. -/
theorem c9_decode_failure_returns_raw_witness :
    displayContent (fun _ => none)
        ⟨1, "AAA", 1, 2, MessageStatus.SENT, true, false⟩ = "AAA" :=
  c9_decode_failure_returns_raw (fun _ => none)
    ⟨1, "AAA", 1, 2, MessageStatus.SENT, true, false⟩ rfl rfl rfl

/-- C9 counterexample: two distinct encrypted messages that fail to
decode are displayed as their own raw stored blobs — the two displays
differ, so no placeholder string is substituted for the displayed
content of an undecodable message. -/
theorem c9_no_placeholder_counterexample :
    displayContent (fun _ => none)
        ⟨1, "AAA", 1, 2, MessageStatus.SENT, true, false⟩ = "AAA" ∧
    displayContent (fun _ => none)
        ⟨2, "BBB", 1, 2, MessageStatus.SENT, true, false⟩ = "BBB" ∧
    ("AAA" : String) ≠ "BBB" := by
  refine ⟨rfl, rfl, by decide⟩

/-! ### Unvalidated status strings -/

theorem handleStatusUpdate_other_status (store : MsgStore)
    (cid mid : Nat) (s : String) (m : Message) (hmid : mid ≠ 0)
    (hs : s ≠ "") (hsd : s ≠ "delivered") (hsr : s ≠ "read")
    (hfind : store.find? (fun x => x.id = mid) = some m)
    (hconv : m.conversation_id = cid) :
    handleStatusUpdate store cid (some mid) (some s)
      = (store, some (OutEvent.status_update mid s)) := by
  unfold handleStatusUpdate
  dsimp only
  rw [if_pos ⟨hmid, hs⟩, hfind]
  dsimp only
  rw [if_pos hconv, if_neg hsd, if_neg hsr]

/-- C10 (confirmed): a `status_update` event whose message id resolves
to a message of the current channel and whose status string is non-empty
but neither "delivered" nor "read" leaves the store untouched, yet the
step still broadcasts a `status_update` event carrying that unvalidated
string to the rest of the channel. -/
theorem c10_unvalidated_status_broadcast (fails : Nat → Bool)
    (encode : String → String) (decode : String → Option String)
    (cid uid ws mid : Nat) (username s : String) (st : LoopState)
    (m : Message) (hmid : mid ≠ 0) (hs : s ≠ "")
    (hsd : s ≠ "delivered") (hsr : s ≠ "read")
    (hfind : st.store.find? (fun x => x.id = mid) = some m)
    (hconv : m.conversation_id = cid) :
    receiveStep fails encode decode cid uid ws username st
        (Frame.event (InEvent.status_update (some mid) (some s)))
      = StepResult.next
          { st with registry :=
              (send_to_conversation fails st.registry cid (some ws)).2 }
          [(OutEvent.status_update mid s,
            (send_to_conversation fails st.registry cid (some ws)).1)]
          [] := by
  unfold receiveStep
  dsimp only
  rw [handleStatusUpdate_other_status st.store cid mid s m hmid hs hsd hsr
      hfind hconv]

/-- Witness for C10: status string "seen" on message 1 of channel 1. -/
theorem c10_unvalidated_status_broadcast_witness :
    receiveStep (fun _ => false) (fun x => x) (fun _ => none) 1 2 7 "bob"
        ⟨[(1, [(7, 2), (8, 3)])],
         [⟨1, "x", 1, 3, MessageStatus.SENT, false, false⟩], 4⟩
        (Frame.event (InEvent.status_update (some 1) (some "seen")))
      = StepResult.next
          ⟨[(1, [(7, 2), (8, 3)])],
           [⟨1, "x", 1, 3, MessageStatus.SENT, false, false⟩], 4⟩
          [(OutEvent.status_update 1 "seen", [8])] [] := by
  have h := c10_unvalidated_status_broadcast (fun _ => false)
    (fun x => x) (fun _ => none) 1 2 7 1 "bob" "seen"
    ⟨[(1, [(7, 2), (8, 3)])],
     [⟨1, "x", 1, 3, MessageStatus.SENT, false, false⟩], 4⟩
    ⟨1, "x", 1, 3, MessageStatus.SENT, false, false⟩
    (by decide) (by decide) (by decide) (by decide) (by decide) rfl
  rw [h]
  rfl

/-! ### Bulk-sweep phases -/

/-- C4 (confirmed): the bulk sweep runs its two UPDATE phases in source
order over messages of the channel authored by the other participant:
each such message ends at READ, an initially-SENT one having been stored
at DELIVERED after the first phase (so the stored state passes through
DELIVERED); messages authored by the acting user, or outside the
channel/other-sender filter, are never advanced. -/
theorem c4_bulk_sweep_two_phases (store : MsgStore)
    (cid other actor : Nat) (hact : actor ≠ other) (i : Nat)
    (m : Message) (hm : store[i]? = some m) :
    (m.conversation_id = cid → m.sender_id = other →
      (connectSweep store cid other)[i]?
          = some { m with status := MessageStatus.READ } ∧
      (m.status = MessageStatus.SENT →
        (markDelivered store cid other)[i]?
          = some { m with status := MessageStatus.DELIVERED })) ∧
    (m.sender_id = actor →
      (connectSweep store cid other)[i]? = some m) ∧
    (¬ (m.conversation_id = cid ∧ m.sender_id = other) →
      (connectSweep store cid other)[i]? = some m) := by
  have hd : (markDelivered store cid other)[i]?
      = some (deliverOne cid other m) := by
    unfold markDelivered
    rw [List.getElem?_map, hm]
    rfl
  have hs : (connectSweep store cid other)[i]?
      = some (readOne cid other (deliverOne cid other m)) := by
    unfold connectSweep markRead
    rw [List.getElem?_map, hd]
    rfl
  obtain ⟨mi, mc, mcid, msid, mst, menc, mdel⟩ := m
  refine ⟨?_, ?_, ?_⟩
  · intro hcid hsend
    dsimp only at hcid hsend
    subst hcid
    subst hsend
    constructor
    · rw [hs]
      cases mst with
      | SENT => simp [deliverOne, readOne]
      | DELIVERED => simp [deliverOne, readOne]
      | READ => simp [deliverOne, readOne]
    · intro hsent
      dsimp only at hsent
      subst hsent
      rw [hd]
      simp [deliverOne]
  · intro hsid
    dsimp only at hsid
    subst hsid
    rw [hs]
    have h2 : msid ≠ other := hact
    simp [deliverOne, readOne, h2]
  · intro hnot
    rw [hs]
    by_cases h1 : mcid = cid
    · have h2 : msid ≠ other := fun h => hnot ⟨h1, h⟩
      simp [deliverOne, readOne, h1, h2]
    · simp [deliverOne, readOne, h1]

/-- Witness for C4: one SENT message of channel 1 authored by user 2 is
swept to READ and is stored at DELIVERED after the first phase. -/
theorem c4_bulk_sweep_two_phases_witness :
    (connectSweep [⟨5, "hi", 1, 2, MessageStatus.SENT, false, false⟩]
        1 2)[0]?
      = some ⟨5, "hi", 1, 2, MessageStatus.READ, false, false⟩ ∧
    (markDelivered [⟨5, "hi", 1, 2, MessageStatus.SENT, false, false⟩]
        1 2)[0]?
      = some ⟨5, "hi", 1, 2, MessageStatus.DELIVERED, false, false⟩ := by
  have h := (c4_bulk_sweep_two_phases
      [⟨5, "hi", 1, 2, MessageStatus.SENT, false, false⟩] 1 2 3
      (by decide) 0 ⟨5, "hi", 1, 2, MessageStatus.SENT, false, false⟩
      rfl).1 rfl rfl
  exact ⟨h.1, h.2 rfl⟩

/-! ### Status monotonicity -/

theorem rank_le_read (st : MessageStatus) :
    st.rank ≤ MessageStatus.rank MessageStatus.READ := by
  cases st <;> simp [MessageStatus.rank]

theorem deliverOne_rank (cid other : Nat) (m : Message) :
    m.status.rank ≤ (deliverOne cid other m).status.rank := by
  unfold deliverOne
  split
  · rename_i h
    rw [h.2.2]
    show MessageStatus.rank MessageStatus.SENT
      ≤ MessageStatus.rank MessageStatus.DELIVERED
    decide
  · exact le_refl _

theorem readOne_rank (cid other : Nat) (m : Message) :
    m.status.rank ≤ (readOne cid other m).status.rank := by
  unfold readOne
  split
  · rename_i h
    rw [h.2.2]
    show MessageStatus.rank MessageStatus.DELIVERED
      ≤ MessageStatus.rank MessageStatus.READ
    decide
  · exact le_refl _

theorem connectSweep_rank (store : MsgStore) (cid other : Nat) (i : Nat)
    (m m' : Message) (hm : store[i]? = some m)
    (hm' : (connectSweep store cid other)[i]? = some m') :
    m.status.rank ≤ m'.status.rank := by
  have hs : (connectSweep store cid other)[i]?
      = some (readOne cid other (deliverOne cid other m)) := by
    unfold connectSweep markRead markDelivered
    rw [List.getElem?_map, List.getElem?_map, hm]
    rfl
  rw [hs] at hm'
  injection hm' with h
  rw [← h]
  exact le_trans (deliverOne_rank cid other m)
    (readOne_rank cid other (deliverOne cid other m))

theorem setStatusFirst_getElem? (store : MsgStore) (mid : Nat)
    (stt : MessageStatus) (i : Nat) (m : Message)
    (hm : store[i]? = some m) :
    (setStatusFirst store mid stt)[i]? = some m ∨
    (setStatusFirst store mid stt)[i]?
      = some { m with status := stt } := by
  induction store generalizing i with
  | nil => simp at hm
  | cons a rest ih =>
    unfold setStatusFirst
    by_cases h : a.id = mid
    · rw [if_pos h]
      cases i with
      | zero =>
        rw [List.getElem?_cons_zero] at hm ⊢
        injection hm with hm
        right
        rw [hm]
      | succ j =>
        rw [List.getElem?_cons_succ] at hm ⊢
        left
        exact hm
    · rw [if_neg h]
      cases i with
      | zero =>
        rw [List.getElem?_cons_zero] at hm ⊢
        left
        exact hm
      | succ j =>
        rw [List.getElem?_cons_succ] at hm ⊢
        exact ih j hm

theorem setStatusFirst_mem (store : MsgStore) (mid : Nat)
    (stt : MessageStatus) (m : Message)
    (hm : store.find? (fun x => x.id = mid) = some m) :
    { m with status := stt } ∈ setStatusFirst store mid stt := by
  induction store with
  | nil => simp at hm
  | cons a rest ih =>
    by_cases h : a.id = mid
    · rw [List.find?_cons_of_pos rest (by simpa using h)] at hm
      injection hm with hm
      unfold setStatusFirst
      rw [if_pos h, hm]
      exact List.mem_cons_self _ _
    · rw [List.find?_cons_of_neg rest (by simpa using h)] at hm
      unfold setStatusFirst
      rw [if_neg h]
      exact List.mem_cons_of_mem _ (ih hm)

theorem handleStatusUpdate_read_fst (store : MsgStore) (cid : Nat)
    (mid? : Option Nat) :
    (handleStatusUpdate store cid mid? (some "read")).1 = store ∨
    ∃ mid, (handleStatusUpdate store cid mid? (some "read")).1
        = setStatusFirst store mid MessageStatus.READ := by
  cases mid? with
  | none => left; rfl
  | some mid =>
    unfold handleStatusUpdate
    dsimp only
    by_cases h0 : mid ≠ 0 ∧ ("read" : String) ≠ ""
    · rw [if_pos h0]
      cases hf : store.find? (fun x => x.id = mid) with
      | none => left; rfl
      | some m =>
        dsimp only
        by_cases hc : m.conversation_id = cid
        · rw [if_pos hc, if_neg (by decide : ¬ ("read" : String) = "delivered"),
            if_pos rfl]
          right
          exact ⟨mid, rfl⟩
        · rw [if_neg hc]
          left
          rfl
    · rw [if_neg h0]
      left
      rfl

theorem handleStatusUpdate_delivered (store : MsgStore) (cid mid : Nat)
    (m : Message) (hfind : store.find? (fun x => x.id = mid) = some m)
    (hconv : m.conversation_id = cid) (hmid : mid ≠ 0) :
    handleStatusUpdate store cid (some mid) (some "delivered")
      = (setStatusFirst store mid MessageStatus.DELIVERED,
         some (OutEvent.status_update mid "delivered")) := by
  unfold handleStatusUpdate
  dsimp only
  rw [if_pos ⟨hmid, by decide⟩, hfind]
  dsimp only
  rw [if_pos hconv, if_pos rfl]

/-- C1 (corrected, amended form): the bulk sweep and explicit "read"
updates never decrease a message's stored status, and no transition
request is signalled as an error; but an explicit "delivered" update
assigns DELIVERED unconditionally to the targeted message of the
channel, so it moves a READ message backward to DELIVERED. -/
theorem c1_status_transitions_amended (store : MsgStore) (cid : Nat) :
    (∀ (other i : Nat) (m m' : Message), store[i]? = some m →
        (connectSweep store cid other)[i]? = some m' →
        m.status.rank ≤ m'.status.rank) ∧
    (∀ (mid? : Option Nat) (i : Nat) (m m' : Message),
        store[i]? = some m →
        ((handleStatusUpdate store cid mid? (some "read")).1)[i]?
          = some m' →
        m.status.rank ≤ m'.status.rank) ∧
    (∀ (mid : Nat) (m : Message),
        store.find? (fun x => x.id = mid) = some m →
        m.conversation_id = cid → mid ≠ 0 →
        (handleStatusUpdate store cid (some mid) (some "delivered")).1
          = setStatusFirst store mid MessageStatus.DELIVERED ∧
        { m with status := MessageStatus.DELIVERED }
          ∈ (handleStatusUpdate store cid (some mid)
              (some "delivered")).1) := by
  refine ⟨?_, ?_, ?_⟩
  · intro other i m m' hm hm'
    exact connectSweep_rank store cid other i m m' hm hm'
  · intro mid? i m m' hm hm'
    rcases handleStatusUpdate_read_fst store cid mid? with h | ⟨mid, h⟩
    · rw [h] at hm'
      rw [hm] at hm'
      injection hm' with h2
      rw [h2]
    · rw [h] at hm'
      rcases setStatusFirst_getElem? store mid MessageStatus.READ i m hm
        with h2 | h2
      · rw [h2] at hm'
        injection hm' with h3
        rw [h3]
      · rw [h2] at hm'
        injection hm' with h3
        rw [← h3]
        exact rank_le_read m.status
  · intro mid m hfind hconv hmid
    have h := handleStatusUpdate_delivered store cid mid m hfind hconv hmid
    constructor
    · rw [h]
    · rw [h]
      exact setStatusFirst_mem store mid MessageStatus.DELIVERED m hfind

/-- Witness for the amended C1: a concrete "delivered" request on the
READ message 1 of channel 1 rewrites its stored status to DELIVERED. -/
theorem c1_status_transitions_amended_witness :
    (handleStatusUpdate [⟨1, "x", 1, 2, MessageStatus.READ, false, false⟩]
        1 (some 1) (some "delivered")).1
      = [⟨1, "x", 1, 2, MessageStatus.DELIVERED, false, false⟩] := by
  have h := (c1_status_transitions_amended
      [⟨1, "x", 1, 2, MessageStatus.READ, false, false⟩] 1).2.2 1
      ⟨1, "x", 1, 2, MessageStatus.READ, false, false⟩ (by decide) rfl
      (by decide)
  rw [h.1]
  decide

/-- C1 counterexample: an explicit status-update event with status
"delivered" on a message stored at READ changes the stored status to
DELIVERED, a strictly smaller status in the order
SENT < DELIVERED < READ — the claimed non-decrease fails. -/
theorem c1_backward_transition_counterexample :
    (handleStatusUpdate [⟨1, "x", 1, 2, MessageStatus.READ, false, false⟩]
        1 (some 1) (some "delivered")).1
      = [⟨1, "x", 1, 2, MessageStatus.DELIVERED, false, false⟩] ∧
    MessageStatus.rank MessageStatus.DELIVERED
      < MessageStatus.rank MessageStatus.READ := by
  exact ⟨by decide, by decide⟩

/-! ### Message fan-out -/

theorem send_to_conversation_all_live (fails : Nat → Bool)
    (r : Registry) (cid ws : Nat) (b : Bucket)
    (hb : alistLookup r cid = some b)
    (hlive : ∀ p ∈ b, fails p.1 = false) :
    (send_to_conversation fails r cid (some ws)).1
      = (b.filter (fun p => p.1 ≠ ws)).map Prod.fst := by
  unfold send_to_conversation
  rw [hb]
  dsimp only
  rw [sendLoop_fst]
  congr 1
  apply List.filter_congr
  intro p hp
  have hf := hlive p hp
  simp [hf]

/-- C8 (confirmed): a message event with non-empty (stripped) content,
sent on a channel whose bucket holds the sender's websocket and N other
live connections, produces one broadcast of the materialized payload
whose recipients are exactly those N other websockets, plus one personal
echo of the same payload to the sender's own connection. -/
theorem c8_message_fanout (fails : Nat → Bool)
    (encode : String → String) (decode : String → Option String)
    (cid uid ws : Nat) (username : String) (st : LoopState)
    (b : Bucket) (content : String) (encrypt : Bool) (mtype : String)
    (hb : alistLookup st.registry cid = some b)
    (hlive : ∀ p ∈ b, fails p.1 = false)
    (hc : ¬ pythonStrip content = "") :
    ∃ payload st',
      receiveStep fails encode decode cid uid ws username st
          (Frame.event (InEvent.message content encrypt mtype))
        = StepResult.next st'
            [(payload, (b.filter (fun p => p.1 ≠ ws)).map Prod.fst)]
            [payload] := by
  have hsend := send_to_conversation_all_live fails st.registry cid ws b
    hb hlive
  apply Exists.intro
  apply Exists.intro
  unfold receiveStep
  dsimp only
  rw [if_neg hc, hsend]

/-- Witness for C8: user 10 on websocket 7 sends " hi " into channel 1
whose bucket holds websockets 7 (self), 8 and 9; the payload is
broadcast to exactly 8 and 9 and echoed once to 7. -/
theorem c8_message_fanout_witness :
    ∃ payload st',
      receiveStep (fun _ => false) (fun s => s) (fun s => some s) 1 10 7
          "alice" ⟨[(1, [(7, 10), (8, 20), (9, 30)])], [], 5⟩
          (Frame.event (InEvent.message " hi " false "text"))
        = StepResult.next st'
            [(payload,
              (([(7, 10), (8, 20), (9, 30)] : Bucket).filter
                  (fun p => p.1 ≠ 7)).map Prod.fst)]
            [payload] :=
  c8_message_fanout (fun _ => false) (fun s => s) (fun s => some s)
    1 10 7 "alice" ⟨[(1, [(7, 10), (8, 20), (9, 30)])], [], 5⟩
    [(7, 10), (8, 20), (9, 30)] " hi " false "text"
    (by decide) (by decide) (by decide)

/-- Witness for C7 at a concrete presence map: user 5 marked active at
time 0 is online at 29999999 μs, offline at exactly 30000000 μs, and an
absent user 9 is offline. -/
theorem c7_is_online_iff_witness :
    is_online [(5, 0)] 5 29999999 = true ∧
    is_online [(5, 0)] 5 thirtySeconds = false ∧
    is_online [(5, 0)] 9 29999999 = false := by
  refine ⟨?_, ?_, ?_⟩
  · exact (c7_is_online_iff [(5, 0)] 5 29999999).1.2
      ⟨0, by decide, by decide⟩
  · exact (c7_is_online_iff [(5, 0)] 5 thirtySeconds).2.2 0 (by decide)
      (by decide)
  · exact (c7_is_online_iff [(5, 0)] 9 29999999).2.1 (by decide)

end ChatApp
